import Mathlib

/- Shallow embedding of the dbos-invoice-processor repository.

The definitions below are translated from the repository sources:
  - src/constants.ts        (InvoiceStatus, UserRole, BUSINESS_RULES, ERROR_CODES)
  - src/operations.ts       (steps, transactions, invoiceProcessingWorkflow)
  - src/api.ts              (the invoice action endpoints)
  - migrations/20240128000001_create_initial_tables.ts (status enumeration)

JavaScript numbers are modelled as rationals; undefined values as Option;
the database as explicit lists of rows threaded through the functions. -/

/- Status string constants from the InvoiceStatus enum in src/constants.ts.
The TypeScript enum is string-valued, so each member is a String here. -/
namespace InvoiceStatus

def PROCESSING : String := "processing"

def NEEDS_REVIEW : String := "needs_review"

def AWAITING_APPROVAL : String := "awaiting_approval"

def APPROVED : String := "approved"

def REJECTED : String := "rejected"

end InvoiceStatus

/- Role string constants from the UserRole enum in src/constants.ts. -/
namespace UserRole

def FINANCE_CLERK : String := "finance_clerk"

def FINANCE_MANAGER : String := "finance_manager"

def ADMIN : String := "admin"

end UserRole

/- Business logic constants from BUSINESS_RULES in src/constants.ts. -/
namespace BUSINESS_RULES

def CONFIDENCE_THRESHOLD_AUTO_APPROVAL : ℚ := 95/100

def LOW_CONFIDENCE_THRESHOLD : ℚ := 75/100

def MAX_FILE_SIZE_BYTES : ℕ := 10485760

def MATH_TOLERANCE : ℚ := 1/100

end BUSINESS_RULES

/-- Status values accepted by the invoices.status column, from the
table.enum call in migrations/20240128000001_create_initial_tables.ts. -/
def invoiceStatusEnumValues : List String :=
  ["processing", "needs_review", "awaiting_approval", "approved", "rejected"]

/-- Per-field confidence record (FieldConfidence in src/operations.ts).
The value payload is typed any in the source and is never consulted by any
logic under verification, so only the confidence score is modelled. -/
structure FieldConfidence where
  confidence : ℚ
  deriving DecidableEq, Repr

/-- ExtractionConfidence from src/operations.ts. -/
structure ExtractionConfidence where
  vendorName : Option FieldConfidence
  invoiceNumber : Option FieldConfidence
  invoiceDate : Option FieldConfidence
  totalAmount : Option FieldConfidence
  lineItems : Option (List FieldConfidence)
  overallConfidence : ℚ
  deriving DecidableEq, Repr

/-- A line item as produced by the extraction step (LineItem without id). -/
structure ExtractedLineItem where
  description : String
  quantity : ℚ
  unitPrice : ℚ
  lineTotal : ℚ
  productCode : Option String
  lineNumber : ℕ
  deriving DecidableEq, Repr

/-- The extractedData object produced by extractInvoiceDataStep; the source
types it any, its fields may be absent, hence the Options. -/
structure ExtractedData where
  vendorName : Option String
  invoiceNumber : String
  invoiceDate : Option String
  dueDate : Option String
  subtotal : Option ℚ
  taxAmount : Option ℚ
  totalAmount : Option ℚ
  currency : Option String
  lineItems : Option (List ExtractedLineItem)
  deriving DecidableEq, Repr

/-- Math.abs on the rational model of JS numbers. -/
def mathAbs (q : ℚ) : ℚ := if q < 0 then -q else q

/-- The expression extractedData.lineItems?.reduce((sum, item) => sum +
item.lineTotal, 0) || 0 from validateBusinessRulesStep: undefined lineItems
collapse to 0, otherwise the line totals are summed. -/
def lineItemsTotal (d : ExtractedData) : ℚ :=
  match d.lineItems with
  | none => 0
  | some items => items.foldl (fun s it => s + it.lineTotal) 0

/-- The subtotalDiff computation in validateBusinessRulesStep:
Math.abs(lineItemsTotal - (extractedData.subtotal || 0)). -/
def subtotalDiff (d : ExtractedData) : ℚ :=
  mathAbs (lineItemsTotal d - d.subtotal.getD 0)

/-- The totalDiff computation in validateBusinessRulesStep:
Math.abs((subtotal || 0) + (taxAmount || 0) - (totalAmount || 0)). -/
def totalDiff (d : ExtractedData) : ℚ :=
  mathAbs (d.subtotal.getD 0 + d.taxAmount.getD 0 - d.totalAmount.getD 0)

/-- validateBusinessRulesStep from src/operations.ts: low overall confidence
routes to needs_review; then failed arithmetic reconciliation routes to
needs_review; then confidence at or above the auto-approval threshold routes
to awaiting_approval; everything else falls through to needs_review. -/
def validateBusinessRulesStep (d : ExtractedData) (c : ExtractionConfidence) : String :=
  if c.overallConfidence < BUSINESS_RULES.LOW_CONFIDENCE_THRESHOLD then
    InvoiceStatus.NEEDS_REVIEW
  else if subtotalDiff d > BUSINESS_RULES.MATH_TOLERANCE ∨
      totalDiff d > BUSINESS_RULES.MATH_TOLERANCE then
    InvoiceStatus.NEEDS_REVIEW
  else if c.overallConfidence ≥ BUSINESS_RULES.CONFIDENCE_THRESHOLD_AUTO_APPROVAL then
    InvoiceStatus.AWAITING_APPROVAL
  else
    InvoiceStatus.NEEDS_REVIEW

/-- Sample extraction whose line items sum to 50 against a subtotal of 100. -/
def mismatchData : ExtractedData :=
  { vendorName := some "Acme Corp", invoiceNumber := "INV-1", invoiceDate := none,
    dueDate := none, subtotal := some 100, taxAmount := some 8, totalAmount := some 108,
    currency := some "USD",
    lineItems := some [{ description := "Widget", quantity := 1, unitPrice := 50,
                         lineTotal := 50, productCode := none, lineNumber := 1 }] }

/-- Confidence record with a high overall score and no per-field entries. -/
def plainConfidence (q : ℚ) : ExtractionConfidence :=
  { vendorName := none, invoiceNumber := none, invoiceDate := none,
    totalAmount := none, lineItems := none, overallConfidence := q }

/-- C5: whenever the line-item totals differ from the subtotal by more than
the 0.01 tolerance, validateBusinessRulesStep returns needs_review, for
every value of overallConfidence. -/
theorem needs_review_when_line_items_mismatch (d : ExtractedData) (c : ExtractionConfidence)
    (h : subtotalDiff d > BUSINESS_RULES.MATH_TOLERANCE) :
    validateBusinessRulesStep d c = InvoiceStatus.NEEDS_REVIEW := by
  unfold validateBusinessRulesStep
  split
  · rfl
  · rw [if_pos (Or.inl h)]

/-- Witness for C5: concrete mismatching data with confidence 0.99 is still
routed to needs_review. -/
theorem needs_review_when_line_items_mismatch_witness :
    subtotalDiff mismatchData > BUSINESS_RULES.MATH_TOLERANCE ∧
    validateBusinessRulesStep mismatchData (plainConfidence (99/100)) = InvoiceStatus.NEEDS_REVIEW :=
  have h : subtotalDiff mismatchData > BUSINESS_RULES.MATH_TOLERANCE := by
    norm_num [subtotalDiff, lineItemsTotal, mathAbs, mismatchData, BUSINESS_RULES.MATH_TOLERANCE]
  ⟨h, needs_review_when_line_items_mismatch mismatchData (plainConfidence (99/100)) h⟩

/-- C6: at overallConfidence exactly 0.95, with both arithmetic checks inside
the 0.01 tolerance, validateBusinessRulesStep returns awaiting_approval: the
auto-approval threshold comparison is inclusive. -/
theorem awaiting_approval_at_exact_threshold (d : ExtractedData) (c : ExtractionConfidence)
    (h1 : c.overallConfidence = 95/100)
    (h2 : subtotalDiff d ≤ BUSINESS_RULES.MATH_TOLERANCE)
    (h3 : totalDiff d ≤ BUSINESS_RULES.MATH_TOLERANCE) :
    validateBusinessRulesStep d c = InvoiceStatus.AWAITING_APPROVAL := by
  unfold validateBusinessRulesStep
  rw [h1]
  rw [if_neg (by norm_num [BUSINESS_RULES.LOW_CONFIDENCE_THRESHOLD])]
  rw [if_neg (by rw [not_or]; exact ⟨not_lt.mpr h2, not_lt.mpr h3⟩)]
  rw [if_pos (by norm_num [BUSINESS_RULES.CONFIDENCE_THRESHOLD_AUTO_APPROVAL])]

/-- Sample extraction that reconciles exactly: one 1000 line item, subtotal
1000, tax 80, total 1080. -/
def reconcilingData : ExtractedData :=
  { vendorName := some "Acme Corp", invoiceNumber := "INV-2", invoiceDate := none,
    dueDate := none, subtotal := some 1000, taxAmount := some 80, totalAmount := some 1080,
    currency := some "USD",
    lineItems := some [{ description := "Professional Services", quantity := 1,
                         unitPrice := 1000, lineTotal := 1000, productCode := none,
                         lineNumber := 1 }] }

/-- Witness for C6: the reconciling sample at confidence exactly 0.95 is
routed to awaiting_approval. -/
theorem awaiting_approval_at_exact_threshold_witness :
    validateBusinessRulesStep reconcilingData (plainConfidence (95/100)) = InvoiceStatus.AWAITING_APPROVAL :=
  awaiting_approval_at_exact_threshold reconcilingData (plainConfidence (95/100)) rfl
    (by norm_num [subtotalDiff, lineItemsTotal, mathAbs, reconcilingData, BUSINESS_RULES.MATH_TOLERANCE])
    (by norm_num [totalDiff, mathAbs, reconcilingData, BUSINESS_RULES.MATH_TOLERANCE])

/-- C10: with lineItems absent (or empty) and subtotal, taxAmount and
totalAmount all absent, both arithmetic differences evaluate to 0, so the
decision is driven solely by overallConfidence: awaiting_approval at or above
0.95, needs_review otherwise. -/
theorem confidence_only_decision_when_amounts_absent (d : ExtractedData) (c : ExtractionConfidence)
    (hli : d.lineItems = none ∨ d.lineItems = some [])
    (hs : d.subtotal = none) (ht : d.taxAmount = none) (hT : d.totalAmount = none) :
    subtotalDiff d = 0 ∧ totalDiff d = 0 ∧
    validateBusinessRulesStep d c =
      (if c.overallConfidence ≥ BUSINESS_RULES.CONFIDENCE_THRESHOLD_AUTO_APPROVAL then
        InvoiceStatus.AWAITING_APPROVAL
      else
        InvoiceStatus.NEEDS_REVIEW) := by
  have h0 : lineItemsTotal d = 0 := by
    rcases hli with h | h <;> simp [lineItemsTotal, h]
  have h1 : subtotalDiff d = 0 := by
    simp [subtotalDiff, h0, hs, mathAbs]
  have h2 : totalDiff d = 0 := by
    simp [totalDiff, hs, ht, hT, mathAbs]
  refine ⟨h1, h2, ?_⟩
  unfold validateBusinessRulesStep
  rw [h1, h2]
  by_cases hc : c.overallConfidence < BUSINESS_RULES.LOW_CONFIDENCE_THRESHOLD
  · rw [if_pos hc, if_neg (not_le.mpr (lt_of_lt_of_le hc (by norm_num
      [BUSINESS_RULES.LOW_CONFIDENCE_THRESHOLD, BUSINESS_RULES.CONFIDENCE_THRESHOLD_AUTO_APPROVAL])))]
  · rw [if_neg hc, if_neg (by norm_num [BUSINESS_RULES.MATH_TOLERANCE])]

/-- Extraction with no amounts at all. -/
def emptyAmountsData : ExtractedData :=
  { vendorName := some "Acme Corp", invoiceNumber := "INV-3", invoiceDate := none,
    dueDate := none, subtotal := none, taxAmount := none, totalAmount := none,
    currency := none, lineItems := none }

/-- Witness for C10: with no extracted amounts and confidence 0.96, both
differences are 0 and the invoice is routed to awaiting_approval. -/
theorem confidence_only_decision_when_amounts_absent_witness :
    subtotalDiff emptyAmountsData = 0 ∧ totalDiff emptyAmountsData = 0 ∧
    validateBusinessRulesStep emptyAmountsData (plainConfidence (96/100)) =
      (if (plainConfidence (96/100)).overallConfidence ≥
          BUSINESS_RULES.CONFIDENCE_THRESHOLD_AUTO_APPROVAL then
        InvoiceStatus.AWAITING_APPROVAL
      else
        InvoiceStatus.NEEDS_REVIEW) :=
  confidence_only_decision_when_amounts_absent emptyAmountsData (plainConfidence (96/100))
    (Or.inl rfl) rfl rfl rfl

/-- Invoice row of the invoices table from the migration. -/
structure InvoiceRow where
  id : String
  vendorId : Option String
  invoiceNumber : String
  invoiceDate : Option String
  dueDate : Option String
  subtotal : Option ℚ
  taxAmount : Option ℚ
  totalAmount : Option ℚ
  currency : String
  status : String
  assignedTo : Option String
  approvedBy : Option String
  filePath : String
  extractionConfidence : Option ExtractionConfidence
  deriving DecidableEq, Repr

/-- Line item row of the line_items table from the migration. -/
structure LineItemRow where
  invoiceId : String
  description : String
  quantity : ℚ
  unitPrice : ℚ
  lineTotal : ℚ
  productCode : Option String
  lineNumber : ℕ
  deriving DecidableEq, Repr

/-- User row of the users table from the migration. -/
structure UserRow where
  id : String
  email : String
  name : String
  role : String
  deriving DecidableEq, Repr

/-- Character class [0-9a-f] of the user id regex, with the i flag. -/
def isUuidHexDigit (c : Char) : Bool :=
  (Char.ofNat 48 ≤ c && c ≤ Char.ofNat 57) ||
  (Char.ofNat 97 ≤ c && c ≤ Char.ofNat 102) ||
  (Char.ofNat 65 ≤ c && c ≤ Char.ofNat 70)

/-- The user id validation regex used by the endpoints in src/api.ts:
eight, four, four, four and twelve hex digits joined by hyphens. -/
def isValidUuid (s : String) : Bool :=
  let cs := s.toList
  cs.length == 36 &&
    (List.range 36).all (fun i =>
      match cs.get? i with
      | none => false
      | some c =>
        if i == 8 || i == 13 || i == 18 || i == 23 then c == Char.ofNat 45
        else isUuidHexDigit c)

/-- Row lookup of getInvoiceByIdTransaction: first invoices row matching the
id (the query has no filter on status, so soft-deleted rows are returned
too). -/
def findInvoice (invoices : List InvoiceRow) (invoiceId : String) : Option InvoiceRow :=
  invoices.find? (fun r => r.id == invoiceId)

/-- An optional update parameter: undefined keeps the stored column value. -/
def overrideField (newVal old : Option String) : Option String :=
  match newVal with
  | none => old
  | some a => some a

/-- updateInvoiceStatusTransaction from src/operations.ts: always writes
status, and writes assigned_to / approved_by only for parameters that were
actually passed. -/
def updateInvoiceStatusTransaction (invoices : List InvoiceRow) (invoiceId status : String)
    (assignedTo approvedBy : Option String) : List InvoiceRow :=
  invoices.map (fun r =>
    if r.id == invoiceId then
      { r with status := status,
               assignedTo := overrideField assignedTo r.assignedTo,
               approvedBy := overrideField approvedBy r.approvedBy }
    else r)

/-- deleteInvoiceTransaction from src/operations.ts transcribed literally:
the update statement the code issues, writing the string literal deleted
into status. What that statement does against the migrated schema is
modelled by updateStatusChecked below. -/
def deleteInvoiceTransaction (invoices : List InvoiceRow) (invoiceId : String) :
    List InvoiceRow :=
  invoices.map (fun r => if r.id == invoiceId then { r with status := "deleted" } else r)

/-- An UPDATE of invoices.status run against the migrated schema: knex
table.enum on the PostgreSQL client creates a text column with a CHECK
constraint over the listed enumeration values, so writing any other value
makes the statement raise and the enclosing transaction roll back, leaving
the table unchanged. -/
def updateStatusChecked (invoices : List InvoiceRow) (invoiceId status : String) :
    Except String (List InvoiceRow) :=
  if status ∈ invoiceStatusEnumValues then
    Except.ok (invoices.map (fun r =>
      if r.id == invoiceId then { r with status := status } else r))
  else
    Except.error "invoices_status_check violation"

/-- Outcome of an endpoint: success, or the code of the error response. -/
inductive ApiOutcome where
  | success
  | failure (code : String)
  deriving DecidableEq, Repr

/-- POST /api/invoices/:id/approve from src/api.ts: the caller id must look
like a UUID, the invoice must exist and be awaiting_approval; then status
becomes approved and approved_by is set to the caller. The handler never
reads the users table, so the caller role is not consulted. -/
def approveInvoiceEndpoint (invoices : List InvoiceRow) (invoiceId userId : String) :
    ApiOutcome × List InvoiceRow :=
  if !(isValidUuid userId) then (ApiOutcome.failure "INVALID_USER_ID", invoices)
  else
    match findInvoice invoices invoiceId with
    | none => (ApiOutcome.failure "NOT_FOUND", invoices)
    | some inv =>
      if inv.status ≠ InvoiceStatus.AWAITING_APPROVAL then
        (ApiOutcome.failure "INVALID_STATUS_TRANSITION", invoices)
      else
        (ApiOutcome.success,
         updateInvoiceStatusTransaction invoices invoiceId InvoiceStatus.APPROVED none
           (some userId))

/-- POST /api/invoices/:id/reject from src/api.ts: a truthy reason and an
existing invoice are required; then status is set to rejected. The handler
checks no precondition on the current status. -/
def rejectInvoiceEndpoint (invoices : List InvoiceRow) (invoiceId : String)
    (reason : Option String) : ApiOutcome × List InvoiceRow :=
  if reason.getD "" == "" then (ApiOutcome.failure "MISSING_REASON", invoices)
  else
    match findInvoice invoices invoiceId with
    | none => (ApiOutcome.failure "NOT_FOUND", invoices)
    | some _ =>
      (ApiOutcome.success,
       updateInvoiceStatusTransaction invoices invoiceId InvoiceStatus.REJECTED none none)

/-- DELETE /api/invoices/:id from src/api.ts run against the migrated
schema: the existence check, then deleteInvoiceTransaction attempting its
status update; when the update raises on the column constraint, the
route's catch falls through handleError to the 500 INTERNAL_ERROR
response and the table is unchanged. -/
def deleteInvoiceEndpoint (invoices : List InvoiceRow) (invoiceId : String) :
    ApiOutcome × List InvoiceRow :=
  match findInvoice invoices invoiceId with
  | none => (ApiOutcome.failure "NOT_FOUND", invoices)
  | some _ =>
    match updateStatusChecked invoices invoiceId "deleted" with
    | Except.error _ => (ApiOutcome.failure "INTERNAL_ERROR", invoices)
    | Except.ok updated => (ApiOutcome.success, updated)

/-- Role recorded for a user id in the users table. -/
def userRole (users : List UserRow) (userId : String) : Option String :=
  (users.find? (fun u => u.id == userId)).map (fun u => u.role)

/-- Invoice sitting in the approval queue. -/
def awaitingInvoice : InvoiceRow :=
  { id := "inv-1", vendorId := none, invoiceNumber := "INV-2024-001", invoiceDate := none,
    dueDate := none, subtotal := some 1000, taxAmount := some 80, totalAmount := some 1080,
    currency := "USD", status := InvoiceStatus.AWAITING_APPROVAL, assignedTo := none,
    approvedBy := none, filePath := "uploads/invoices/1-a.pdf", extractionConfidence := none }

/-- Caller id used in the C1 scenario. -/
def clerkUuid : String := "550e8400-e29b-41d4-a716-446655440002"

/-- Users table entry assigning the finance_clerk role to that caller. -/
def clerkUser : UserRow :=
  { id := clerkUuid, email := "clerk@example.com", name := "Casey Clerk",
    role := UserRole.FINANCE_CLERK }

/-- C1: the approve endpoint enforces no role gate. With the users table
assigning role finance_clerk to the caller, approving an awaiting_approval
invoice succeeds, setting status approved and approved_by to the clerk,
instead of failing with INSUFFICIENT_PERMISSIONS and leaving the invoice
unchanged. -/
theorem approve_succeeds_for_finance_clerk :
    userRole [clerkUser] clerkUuid = some UserRole.FINANCE_CLERK ∧
    approveInvoiceEndpoint [awaitingInvoice] "inv-1" clerkUuid =
      (ApiOutcome.success,
       [{ awaitingInvoice with
            status := InvoiceStatus.APPROVED, approvedBy := some clerkUuid }]) := by
  exact ⟨rfl, rfl⟩

/-- Invoice that a manager already approved. -/
def approvedInvoice : InvoiceRow :=
  { id := "inv-2", vendorId := none, invoiceNumber := "INV-2024-002", invoiceDate := none,
    dueDate := none, subtotal := some 500, taxAmount := some 40, totalAmount := some 540,
    currency := "USD", status := InvoiceStatus.APPROVED, assignedTo := none,
    approvedBy := some clerkUuid, filePath := "uploads/invoices/2-b.pdf",
    extractionConfidence := none }

/-- C3: the reject endpoint checks no status precondition. Rejecting an
invoice whose status is approved (not awaiting_approval) succeeds and
overwrites the status with rejected, instead of failing with
INVALID_STATUS_TRANSITION and causing no mutation. -/
theorem reject_succeeds_from_approved_status :
    approvedInvoice.status ≠ InvoiceStatus.AWAITING_APPROVAL ∧
    rejectInvoiceEndpoint [approvedInvoice] "inv-2" (some "duplicate invoice") =
      (ApiOutcome.success, [{ approvedInvoice with status := InvoiceStatus.REJECTED }]) := by
  exact ⟨by decide, rfl⟩

/-- Invoice used in the C4 scenario. -/
def deletableInvoice : InvoiceRow :=
  { id := "inv-4", vendorId := none, invoiceNumber := "INV-2024-004", invoiceDate := none,
    dueDate := none, subtotal := some 10, taxAmount := some 1, totalAmount := some 11,
    currency := "USD", status := InvoiceStatus.NEEDS_REVIEW, assignedTo := none,
    approvedBy := none, filePath := "uploads/invoices/4-d.pdf", extractionConfidence := none }

/-- C4: the soft delete can never succeed against the repository's own
schema. The transaction attempts to write the status literal deleted, but
deleted is not among the values of the migration's status enumeration, so
the CHECK constraint makes the update raise: at a concrete existing
invoice, the delete endpoint returns the 500 INTERNAL_ERROR response and
the row keeps its prior status — not the successful transition to a
deleted marker inside the enumeration that the claim describes. -/
theorem delete_raises_on_status_check_constraint :
    "deleted" ∉ invoiceStatusEnumValues ∧
    deleteInvoiceTransaction [deletableInvoice] "inv-4" =
      [{ deletableInvoice with status := "deleted" }] ∧
    deleteInvoiceEndpoint [deletableInvoice] "inv-4" =
      (ApiOutcome.failure "INTERNAL_ERROR", [deletableInvoice]) := by
  exact ⟨by decide, rfl, rfl⟩

/-- Invoice still in review when an approval is attempted. -/
def reviewInvoice : InvoiceRow :=
  { id := "inv-3", vendorId := none, invoiceNumber := "INV-2024-003", invoiceDate := none,
    dueDate := none, subtotal := some 200, taxAmount := some 16, totalAmount := some 216,
    currency := "USD", status := InvoiceStatus.NEEDS_REVIEW, assignedTo := none,
    approvedBy := none, filePath := "uploads/invoices/3-c.pdf", extractionConfidence := none }

/-- Caller id used in the C7 scenario. -/
def managerUuid : String := "550e8400-e29b-41d4-a716-446655440001"

/-- C7: approving an invoice whose status is needs_review fails with
INVALID_STATUS_TRANSITION and returns the invoices table unchanged, so
status and approved_by keep their prior values. -/
theorem approve_fails_on_needs_review (invoices : List InvoiceRow) (invoiceId userId : String)
    (inv : InvoiceRow) (hu : isValidUuid userId = true)
    (hfind : findInvoice invoices invoiceId = some inv)
    (hstatus : inv.status = InvoiceStatus.NEEDS_REVIEW) :
    approveInvoiceEndpoint invoices invoiceId userId =
      (ApiOutcome.failure "INVALID_STATUS_TRANSITION", invoices) := by
  have hne : inv.status ≠ InvoiceStatus.AWAITING_APPROVAL := by
    rw [hstatus]; decide
  unfold approveInvoiceEndpoint
  rw [hu, hfind]
  simp [hne]

/-- Witness for C7: approving the concrete needs_review invoice with a valid
caller UUID fails and leaves the table as it was. -/
theorem approve_fails_on_needs_review_witness :
    isValidUuid managerUuid = true ∧
    approveInvoiceEndpoint [reviewInvoice] "inv-3" managerUuid =
      (ApiOutcome.failure "INVALID_STATUS_TRANSITION", [reviewInvoice]) :=
  ⟨rfl, approve_fails_on_needs_review [reviewInvoice] "inv-3" managerUuid reviewInvoice rfl rfl rfl⟩

/-- Uploaded file data as received by invoiceProcessingWorkflow. -/
structure FileData where
  originalname : String
  mimetype : String
  size : ℕ
  deriving DecidableEq, Repr

/-- MIME types accepted by validateFileStep in src/operations.ts. -/
def allowedTypes : List String :=
  ["application/pdf", "image/png", "image/jpeg", "image/jpg"]

/-- Typed rendering of the errors thrown inside the workflow. -/
inductive WorkflowError where
  | invalidFileFormat (mimetype : String)
  | fileTooLarge (size : ℕ)
  | txFailure (txName : String)
  | retrieveFailed
  deriving DecidableEq, Repr

/-- validateFileStep from src/operations.ts: the MIME type is checked first,
then the size against the inclusive 10 MiB bound (only strictly larger files
throw FILE_TOO_LARGE). -/
def validateFileStep (file : FileData) : Except WorkflowError Unit :=
  if !(allowedTypes.contains file.mimetype) then
    Except.error (WorkflowError.invalidFileFormat file.mimetype)
  else if file.size > BUSINESS_RULES.MAX_FILE_SIZE_BYTES then
    Except.error (WorkflowError.fileTooLarge file.size)
  else
    Except.ok ()

/-- Size rule of InvoiceSubmissionSchema in src/operations.ts:
z.number().max(MAX_FILE_SIZE_BYTES) accepts sizes up to and including the
bound. -/
def invoiceSubmissionSchemaAcceptsSize (file : FileData) : Prop :=
  file.size ≤ BUSINESS_RULES.MAX_FILE_SIZE_BYTES

/-- Database plus file-storage state threaded through the workflow. -/
structure DbState where
  invoices : List InvoiceRow
  lineItems : List LineItemRow
  storedFiles : List String
  deriving DecidableEq, Repr

/-- Ambient clock values the steps read through Date: Date.now() and the two
ISO date strings the stub extraction derives from it. -/
structure ClockEnv where
  nowMs : ℕ
  todayIso : String
  dueIn30DaysIso : String
  deriving DecidableEq, Repr

/-- saveFileStep from src/operations.ts: writes the upload under
uploadDir/timestamp-originalname and returns that path. -/
def saveFileStep (db : DbState) (originalname : String) (env : ClockEnv) : DbState × String :=
  let filePath := "uploads/invoices/" ++ toString env.nowMs ++ "-" ++ originalname
  ({ db with storedFiles := db.storedFiles ++ [filePath] }, filePath)

/-- extractInvoiceDataStep from src/operations.ts: the stub extraction that
stands in for the LLM service, returning fixed amounts (one 1000 line item,
subtotal 1000, tax 80, total 1080) and an overall confidence of 0.93. -/
def extractInvoiceDataStep (filePath : String) (env : ClockEnv) :
    ExtractedData × ExtractionConfidence :=
  let extracted : ExtractedData :=
    { vendorName := some "Acme Corp",
      invoiceNumber := "INV-" ++ toString env.nowMs,
      invoiceDate := some env.todayIso,
      dueDate := some env.dueIn30DaysIso,
      subtotal := some 1000, taxAmount := some 80, totalAmount := some 1080,
      currency := some "USD",
      lineItems := some [{ description := "Professional Services", quantity := 1,
                           unitPrice := 1000, lineTotal := 1000, productCode := none,
                           lineNumber := 1 }] }
  (extracted,
   { vendorName := some { confidence := 95/100 },
     invoiceNumber := some { confidence := 98/100 },
     invoiceDate := some { confidence := 92/100 },
     totalAmount := some { confidence := 97/100 },
     lineItems := none,
     overallConfidence := 93/100 })

/-- Header fields handed to createInvoiceTransaction by the workflow. -/
structure InvoiceInsert where
  vendorId : Option String
  invoiceNumber : String
  invoiceDate : Option String
  dueDate : Option String
  subtotal : Option ℚ
  taxAmount : Option ℚ
  totalAmount : Option ℚ
  currency : String
  status : String
  filePath : String
  extractionConfidence : Option ExtractionConfidence
  deriving DecidableEq, Repr

/-- createInvoiceTransaction from src/operations.ts: inserts one invoice row
and returns the generated id; the uuid the database generates is passed in
as newId. -/
def createInvoiceTransaction (db : DbState) (newId : String) (d : InvoiceInsert) :
    DbState × String :=
  ({ db with invoices := db.invoices ++
      [{ id := newId, vendorId := d.vendorId, invoiceNumber := d.invoiceNumber,
         invoiceDate := d.invoiceDate, dueDate := d.dueDate, subtotal := d.subtotal,
         taxAmount := d.taxAmount, totalAmount := d.totalAmount, currency := d.currency,
         status := d.status, assignedTo := none, approvedBy := none,
         filePath := d.filePath, extractionConfidence := d.extractionConfidence }] },
   newId)

/-- createLineItemsTransaction from src/operations.ts: inserts the mapped
rows when the list is nonempty. -/
def createLineItemsTransaction (db : DbState) (invoiceId : String)
    (items : List ExtractedLineItem) : DbState :=
  if items.length > 0 then
    { db with lineItems := db.lineItems ++ items.map (fun it =>
        { invoiceId := invoiceId, description := it.description, quantity := it.quantity,
          unitPrice := it.unitPrice, lineTotal := it.lineTotal,
          productCode := it.productCode, lineNumber := it.lineNumber }) }
  else db

/-- invoiceProcessingWorkflow from src/operations.ts. Each DBOS.transaction
call runs as its own database transaction: one that raises rolls back only
its own writes and fails the workflow at that point. The two Booleans
inject such a raise into the create-invoice and create-line-items
transactions respectively. -/
def invoiceProcessingWorkflow (db : DbState) (fileData : FileData) (env : ClockEnv)
    (newId : String) (failCreateInvoice failCreateLineItems : Bool) :
    DbState × Except WorkflowError String :=
  match validateFileStep fileData with
  | Except.error e => (db, Except.error e)
  | Except.ok _ =>
    let saved := saveFileStep db fileData.originalname env
    let extracted := extractInvoiceDataStep saved.2 env
    let status := validateBusinessRulesStep extracted.1 extracted.2
    if failCreateInvoice then
      (saved.1, Except.error (WorkflowError.txFailure "createInvoiceTransaction"))
    else
      let created := createInvoiceTransaction saved.1 newId
        { vendorId := none, invoiceNumber := extracted.1.invoiceNumber,
          invoiceDate := extracted.1.invoiceDate, dueDate := extracted.1.dueDate,
          subtotal := extracted.1.subtotal, taxAmount := extracted.1.taxAmount,
          totalAmount := extracted.1.totalAmount,
          currency := extracted.1.currency.getD "USD", status := status,
          filePath := saved.2, extractionConfidence := some extracted.2 }
      let items := extracted.1.lineItems.getD []
      if items.length > 0 then
        if failCreateLineItems then
          (created.1, Except.error (WorkflowError.txFailure "createLineItemsTransaction"))
        else
          let db3 := createLineItemsTransaction created.1 created.2 items
          match findInvoice db3.invoices created.2 with
          | none => (db3, Except.error WorkflowError.retrieveFailed)
          | some inv => (db3, Except.ok inv.id)
      else
        match findInvoice created.1.invoices created.2 with
        | none => (created.1, Except.error WorkflowError.retrieveFailed)
        | some inv => (created.1, Except.ok inv.id)

/-- Empty initial database. -/
def emptyDb : DbState := { invoices := [], lineItems := [], storedFiles := [] }

/-- Small valid PDF upload. -/
def sampleFile : FileData :=
  { originalname := "invoice.pdf", mimetype := "application/pdf", size := 4096 }

/-- Fixed clock for the concrete runs. -/
def sampleClock : ClockEnv :=
  { nowMs := 1700000000000, todayIso := "2023-11-14", dueIn30DaysIso := "2023-12-14" }

/-- C2 counterexample: in the run where the create-line-items transaction
raises right after the create-invoice transaction committed, the workflow
fails but the invoice row stays persisted, with no line items: creation is
not all-or-nothing. -/
theorem line_items_failure_leaves_invoice_row :
    (invoiceProcessingWorkflow emptyDb sampleFile sampleClock "inv-9" false true).2 =
      Except.error (WorkflowError.txFailure "createLineItemsTransaction") ∧
    ((invoiceProcessingWorkflow emptyDb sampleFile sampleClock "inv-9" false true).1.invoices.map
        InvoiceRow.id) = ["inv-9"] ∧
    (invoiceProcessingWorkflow emptyDb sampleFile sampleClock "inv-9" false true).1.lineItems
      = [] := by
  exact ⟨rfl, rfl, rfl⟩

/-- C2 amended: transactions are individually atomic, but invoice creation is
not all-or-nothing across them: for every upload that passes file
validation, the run in which createLineItemsTransaction raises after
createInvoiceTransaction committed fails the workflow yet leaves the
invoice row persisted (one more invoices row) with the line_items table
untouched. -/
theorem invoice_persists_when_line_items_tx_fails (db : DbState) (file : FileData)
    (env : ClockEnv) (newId : String)
    (hok : validateFileStep file = Except.ok ()) :
    (invoiceProcessingWorkflow db file env newId false true).2 =
      Except.error (WorkflowError.txFailure "createLineItemsTransaction") ∧
    (invoiceProcessingWorkflow db file env newId false true).1.invoices.length =
      db.invoices.length + 1 ∧
    (invoiceProcessingWorkflow db file env newId false true).1.lineItems = db.lineItems := by
  unfold invoiceProcessingWorkflow
  rw [hok]
  simp [saveFileStep, extractInvoiceDataStep, createInvoiceTransaction]

/-- Witness for the amended C2: the failing run on the empty database keeps
the invoice row and writes no line items. -/
theorem invoice_persists_when_line_items_tx_fails_witness :
    (invoiceProcessingWorkflow emptyDb sampleFile sampleClock "inv-10" false true).2 =
      Except.error (WorkflowError.txFailure "createLineItemsTransaction") ∧
    (invoiceProcessingWorkflow emptyDb sampleFile sampleClock "inv-10" false true).1.invoices.length =
      emptyDb.invoices.length + 1 ∧
    (invoiceProcessingWorkflow emptyDb sampleFile sampleClock "inv-10" false true).1.lineItems =
      emptyDb.lineItems :=
  invoice_persists_when_line_items_tx_fails emptyDb sampleFile sampleClock "inv-10" rfl

/-- C8: with an allowed MIME type, a file of exactly 10485760 bytes passes
both the submission schema size rule and validateFileStep, while a file of
10485761 bytes makes the workflow fail with FILE_TOO_LARGE and leaves the
database and the file storage untouched (the save-file step never runs). -/
theorem file_size_boundary (db : DbState) (file : FileData) (env : ClockEnv) (newId : String)
    (f1 f2 : Bool) (hmime : allowedTypes.contains file.mimetype = true) :
    (file.size = 10485760 →
      invoiceSubmissionSchemaAcceptsSize file ∧ validateFileStep file = Except.ok ()) ∧
    (file.size = 10485761 →
      invoiceProcessingWorkflow db file env newId f1 f2 =
        (db, Except.error (WorkflowError.fileTooLarge file.size))) := by
  constructor
  · intro hsize
    constructor
    · unfold invoiceSubmissionSchemaAcceptsSize BUSINESS_RULES.MAX_FILE_SIZE_BYTES
      rw [hsize]
    · unfold validateFileStep
      rw [hmime, hsize]
      norm_num [BUSINESS_RULES.MAX_FILE_SIZE_BYTES]
  · intro hsize
    have hval : validateFileStep file =
        Except.error (WorkflowError.fileTooLarge file.size) := by
      unfold validateFileStep
      rw [hmime, hsize]
      norm_num [BUSINESS_RULES.MAX_FILE_SIZE_BYTES]
    unfold invoiceProcessingWorkflow
    rw [hval]

/-- Largest accepted upload. -/
def maxSizeFile : FileData :=
  { originalname := "boundary.pdf", mimetype := "application/pdf", size := 10485760 }

/-- One byte over the limit. -/
def overSizeFile : FileData :=
  { originalname := "overflow.pdf", mimetype := "application/pdf", size := 10485761 }

/-- Witness for C8 at both sides of the boundary. -/
theorem file_size_boundary_witness :
    (invoiceSubmissionSchemaAcceptsSize maxSizeFile ∧
      validateFileStep maxSizeFile = Except.ok ()) ∧
    invoiceProcessingWorkflow emptyDb overSizeFile sampleClock "inv-11" false false =
      (emptyDb, Except.error (WorkflowError.fileTooLarge overSizeFile.size)) :=
  ⟨(file_size_boundary emptyDb maxSizeFile sampleClock "inv-11" false false rfl).1 rfl,
   (file_size_boundary emptyDb overSizeFile sampleClock "inv-11" false false rfl).2 rfl⟩

/-- Helper: looking up an id that some row of the table carries returns a
row carrying that id. -/
theorem findInvoice_id_of_mem (l : List InvoiceRow) (iid : String)
    (hex : ∃ r ∈ l, r.id = iid) :
    ∃ r, findInvoice l iid = some r ∧ r.id = iid := by
  obtain ⟨r0, hmem, hid⟩ := hex
  cases hcase : findInvoice l iid with
  | none =>
    exfalso
    unfold findInvoice at hcase
    have hnone := List.find?_eq_none.mp hcase r0 hmem
    simp [hid] at hnone
  | some r =>
    refine ⟨r, rfl, ?_⟩
    unfold findInvoice at hcase
    have hp := List.find?_some hcase
    simpa using hp

/-- Helper: the line items of the stub extraction. -/
theorem extractInvoiceDataStep_lineItems (fp : String) (env : ClockEnv) :
    (extractInvoiceDataStep fp env).1.lineItems =
      some [{ description := "Professional Services", quantity := 1, unitPrice := 1000,
              lineTotal := 1000, productCode := none, lineNumber := 1 }] := rfl

/-- C9: the stub extraction reports overall confidence 0.93 with amounts
that reconcile exactly, so every upload that passes file validation ends in
a created invoice whose status is needs_review (below the 0.95 auto-advance
threshold, above the 0.75 low-confidence cutoff), and the workflow returns
the new invoice id. -/
theorem workflow_creates_needs_review_invoice (db : DbState) (file : FileData)
    (env : ClockEnv) (newId : String)
    (hok : validateFileStep file = Except.ok ()) :
    validateBusinessRulesStep
        (extractInvoiceDataStep (saveFileStep db file.originalname env).2 env).1
        (extractInvoiceDataStep (saveFileStep db file.originalname env).2 env).2 =
      InvoiceStatus.NEEDS_REVIEW ∧
    (extractInvoiceDataStep (saveFileStep db file.originalname env).2 env).2.overallConfidence
      = 93/100 ∧
    (invoiceProcessingWorkflow db file env newId false false).2 = Except.ok newId ∧
    (invoiceProcessingWorkflow db file env newId false false).1.invoices.map InvoiceRow.status =
      db.invoices.map InvoiceRow.status ++ [InvoiceStatus.NEEDS_REVIEW] := by
  have hval : validateBusinessRulesStep
      (extractInvoiceDataStep (saveFileStep db file.originalname env).2 env).1
      (extractInvoiceDataStep (saveFileStep db file.originalname env).2 env).2 =
      InvoiceStatus.NEEDS_REVIEW := by
    norm_num [validateBusinessRulesStep, extractInvoiceDataStep, subtotalDiff, totalDiff,
      lineItemsTotal, mathAbs, BUSINESS_RULES.LOW_CONFIDENCE_THRESHOLD,
      BUSINESS_RULES.MATH_TOLERANCE, BUSINESS_RULES.CONFIDENCE_THRESHOLD_AUTO_APPROVAL]
  refine ⟨hval, rfl, ?_, ?_⟩
  · unfold invoiceProcessingWorkflow
    rw [hok]
    simp only [extractInvoiceDataStep_lineItems, Option.getD_some, List.length_cons,
      List.length_nil, Nat.zero_lt_succ, if_true, Bool.false_eq_true, if_false,
      createInvoiceTransaction, createLineItemsTransaction]
    split
    · rename_i heq
      exfalso
      unfold findInvoice at heq
      have hmem := List.find?_eq_none.mp heq _
        (List.mem_append_right _ (List.mem_singleton_self _))
      simp at hmem
    · rename_i inv heq
      unfold findInvoice at heq
      have hp := List.find?_some heq
      simp at hp
      simp [hp]
  · unfold invoiceProcessingWorkflow
    rw [hok]
    simp only [extractInvoiceDataStep_lineItems, Option.getD_some, List.length_cons,
      List.length_nil, Nat.zero_lt_succ, if_true, Bool.false_eq_true, if_false,
      createInvoiceTransaction, createLineItemsTransaction]
    split
    · rename_i heq
      exfalso
      unfold findInvoice at heq
      have hmem := List.find?_eq_none.mp heq _
        (List.mem_append_right _ (List.mem_singleton_self _))
      simp at hmem
    · rename_i inv heq
      rw [hval]
      simp [saveFileStep]

/-- Witness for C9: the no-failure run on the empty database yields the new
id and one invoice row in status needs_review. -/
theorem workflow_creates_needs_review_invoice_witness :
    (invoiceProcessingWorkflow emptyDb sampleFile sampleClock "inv-12" false false).2 =
      Except.ok "inv-12" ∧
    (invoiceProcessingWorkflow emptyDb sampleFile sampleClock "inv-12" false false).1.invoices.map
        InvoiceRow.status =
      emptyDb.invoices.map InvoiceRow.status ++ [InvoiceStatus.NEEDS_REVIEW] :=
  have h := workflow_creates_needs_review_invoice emptyDb sampleFile sampleClock "inv-12" rfl
  ⟨h.2.2.1, h.2.2.2⟩
